import Mathlib

/-!
WhatsApp assistant decision core: a shallow embedding.

This file embeds the decision/gating core of the `whatsapp-assistant`
repository — `src/utils.py`, `src/state_manager.py`, `src/rate_limiter.py`,
`src/router.py` and the classification entry point of `src/claude_client.py` —
as executable Lean definitions, and proves the behavioural claims about it.

Modelling conventions:
* Python `datetime` values are split into the two views the code uses:
  an epoch-seconds integer (what `.timestamp()` comparisons see) and a
  time-of-day tuple (what the `replace(hour=…, minute=…)` comparisons in
  `is_within_allowed_hours` see).  ISO strings stored in the state file are
  modelled directly by their epoch value, since the code only ever round-trips
  them through `fromisoformat`/`timestamp`.
* `datetime.now()` calls are made explicit `now` parameters.
* The fallible Anthropic API call inside `classify_message` is abstracted by
  an `ApiOutcome` that enumerates the observable outcomes of
  `_retry_with_backoff(_classify)`: a parsed JSON payload, a JSON parse
  error, a `ClaudeClientError` after exhausted retries, or some other raised
  exception (e.g. a `ValueError` escaping `float(...)`), which is the only
  case the `except Exception` in `Router.decide` can see.
* Strings are compared as Lean `String`s; `str.lower()` is `String.toLower`
  (the keywords and messages in play are ASCII, where the two agree).
-/

namespace WhatsAppAssistant

/-- Characters of `s` as a list; Python's `in` (substring test) is infix
occurrence on these lists, and `sub.occursIn s` mirrors `sub in s`.
Note that like Python's `"" in s`, the empty string occurs in everything. -/
def occursIn (sub s : String) : Bool :=
  decide (sub.data <:+: s.data)

/-- Python slice `l[:n]` for a nonnegative `n` (used by `message[:100]`). -/
def pyTake (n : Nat) (s : String) : String :=
  String.mk (s.data.take n)

/-- Python `str.lower()`, character by character (the strings in play are
ASCII, where this agrees with Python). -/
def pyLower (s : String) : String :=
  String.mk (s.data.map Char.toLower)

/-- Python `str.upper()`, character by character. -/
def pyUpper (s : String) : String :=
  String.mk (s.data.map Char.toUpper)

/-- Python `str.strip()`: drop leading and trailing whitespace. -/
def pyStrip (s : String) : String :=
  String.mk
    (((s.data.dropWhile Char.isWhitespace).reverse.dropWhile
      Char.isWhitespace).reverse)

/-- Python slice `l[-n:]` (used by `history[-max_history:]`).
CAUTION, faithful to Python: for `n = 0`, `l[-0:]` is `l[0:]`, the whole
list, not the empty list. -/
def pyLastSlice (l : List α) (n : Nat) : List α :=
  if n = 0 then l else l.drop (l.length - n)

/-- Embeds `utils.contains_emergency_keyword`: lowercases the text and tests each
keyword (assumed to be stored lowercase, per its docstring) for substring
containment. -/
def contains_emergency_keyword (text : String) (keywords : List String) : Bool :=
  let text_lower := pyLower text
  keywords.any (fun keyword => occursIn keyword text_lower)

/-- Embeds `utils.contains_stop_keyword`: lowercases both the text and each keyword,
then tests substring containment. -/
def contains_stop_keyword (text : String) (keywords : List String) : Bool :=
  let text_lower := pyLower text
  keywords.any (fun keyword => occursIn (pyLower keyword) text_lower)

/-- The two views of a Python `datetime` that the core uses: its
`.timestamp()` value in seconds, and its time-of-day fields. -/
structure PyDateTime where
  epoch : Int
  hour : Nat
  minute : Nat
  second : Nat
  micro : Nat
deriving Repr, DecidableEq

/-- Comparison key for same-day `datetime` comparisons: `replace` keeps the
date, so Python's `<=` on the replaced values is `<=` on this key. -/
def todKey (hour minute second micro : Nat) : Nat :=
  ((hour * 60 + minute) * 60 + second) * 1000000 + micro

/-- Python `str.split(sep)` for a one-character separator, on the character
list (splits at every occurrence; `"" .split(":") = [""]`-style behaviour). -/
def splitOnChar (c : Char) : List Char → List (List Char)
  | [] => [[]]
  | x :: xs =>
    let r := splitOnChar c xs
    if x = c then [] :: r
    else
      match r with
      | [] => [[x]]
      | y :: ys => (x :: y) :: ys

/-- Python `int(...)` on a digit string: `none` models the `ValueError` on an
empty or non-digit input. -/
def digitsToNat? (l : List Char) : Option Nat :=
  if l.isEmpty then none
  else
    l.foldl (fun acc c =>
      match acc with
      | none => none
      | some n => if c.isDigit then some (n * 10 + (c.toNat - 48)) else none)
      (some 0)

/-- Embeds `map(int, hour_str.split(":"))` with two-element unpacking: any other
shape, or a non-numeric part, raises in Python and is `none` here. -/
def parse_hhmm (s : String) : Option (Nat × Nat) :=
  match splitOnChar ':' s.data with
  | [h, m] =>
    match digitsToNat? h, digitsToNat? m with
    | some hv, some mv => some (hv, mv)
    | _, _ => none
  | _ => none

/-- Embeds `utils.is_within_allowed_hours`.  `none` models the `ValueError` Python
raises on a malformed `HH:MM` bound; otherwise the code builds `start_time`
and `end_time` on the same date with seconds and microseconds zeroed, wraps
past midnight when `end_time < start_time`, and compares datetimes. -/
def is_within_allowed_hours (current_time : PyDateTime)
    (start_hour end_hour : String) : Option Bool :=
  match parse_hhmm start_hour, parse_hhmm end_hour with
  | some (start_h, start_m), some (end_h, end_m) =>
    let cur := todKey current_time.hour current_time.minute
      current_time.second current_time.micro
    let start_time := todKey start_h start_m 0 0
    let end_time := todKey end_h end_m 0 0
    if end_time < start_time then
      some (cur ≥ start_time || cur ≤ end_time)
    else
      some (start_time ≤ cur && cur ≤ end_time)
  | _, _ => none

/-! Section: StateManager (`src/state_manager.py`) -/

/-- One entry of `state["message_history"]`. -/
structure HistoryEntry where
  message : String
  from_me : Bool
  timestamp : Int
deriving Repr, DecidableEq

/-- Embeds `state["rate_limit"]`.  The `hourly_count`/`daily_count`/`last_reset_*`
fields exist in `_default_state` but are never read or written afterwards. -/
structure RateLimitData where
  reply_timestamps : List Int
  hourly_count : Nat
  daily_count : Nat
  last_reset_hour : Option String
  last_reset_day : Option String
deriving Repr, DecidableEq

/-- Embeds `state["statistics"]`. -/
structure Statistics where
  total_messages_processed : Nat
  total_replies_sent : Nat
  total_skipped_emergency : Nat
  total_skipped_hours : Nat
  total_skipped_rate_limit : Nat
  last_updated : Option Int
deriving Repr, DecidableEq

/-- Embeds `state["proactive"]`. -/
structure ProactiveData where
  last_incoming_message_time : Option Int
  unanswered_proactive_count : Nat
  last_proactive_message_time : Option Int
deriving Repr, DecidableEq

/-- Embeds `state["bot_control"]`. -/
structure BotControl where
  disabled : Bool
  disabled_reason : Option String
  disabled_at : Option Int
deriving Repr, DecidableEq

/-- The persisted state document owned by `StateManager`. -/
structure SMState where
  last_processed_timestamp : Option Int
  last_processed_message_id : Option String
  message_history : List HistoryEntry
  rate_limit : RateLimitData
  statistics : Statistics
  proactive : ProactiveData
  bot_control : BotControl
deriving Repr, DecidableEq

namespace StateManager

/-- Embeds `StateManager._default_state`. -/
def default_state : SMState where
  last_processed_timestamp := none
  last_processed_message_id := none
  message_history := []
  rate_limit := ⟨[], 0, 0, none, none⟩
  statistics := ⟨0, 0, 0, 0, 0, none⟩
  proactive := ⟨none, 0, none⟩
  bot_control := ⟨false, none, none⟩

/-- Embeds `StateManager.set_last_processed`. -/
def set_last_processed (s : SMState) (timestamp : Int) (message_id : String) :
    SMState :=
  { s with last_processed_timestamp := some timestamp
           last_processed_message_id := some message_id }

/-- Embeds `StateManager.add_message_to_history`: append the new entry, then keep
`history[-max_history:]` (the Python negative slice, see `pyLastSlice`). -/
def add_message_to_history (s : SMState) (message : String) (from_me : Bool)
    (timestamp : Int) (max_history : Nat) : SMState :=
  let history := s.message_history ++ [⟨message, from_me, timestamp⟩]
  { s with message_history := pyLastSlice history max_history }

/-- Embeds `StateManager.record_reply_sent`: append `timestamp`, drop entries whose
epoch value is not strictly greater than `now − 24·3600` (the cutoff is taken
from `datetime.now()`, passed here as `now`), and bump the statistics. -/
def record_reply_sent (s : SMState) (timestamp : Int) (now : Int) : SMState :=
  let timestamps := s.rate_limit.reply_timestamps ++ [timestamp]
  let cutoff := now - 24 * 3600
  let timestamps := timestamps.filter (fun ts => cutoff < ts)
  { s with
    rate_limit := { s.rate_limit with reply_timestamps := timestamps }
    statistics := { s.statistics with
      total_replies_sent := s.statistics.total_replies_sent + 1
      last_updated := some now } }

/-- Embeds `StateManager.get_reply_timestamps`: entries strictly newer than
`now − since_hours·3600`.  With `Int` timestamps the `except (ValueError,
TypeError)` skip path is unreachable. -/
def get_reply_timestamps (s : SMState) (since_hours : Nat) (now : Int) :
    List Int :=
  let cutoff := now - since_hours * 3600
  s.rate_limit.reply_timestamps.filter (fun ts => cutoff < ts)

/-- Embeds `StateManager.increment_statistic` for the key `total_messages_processed`
(the only key the orchestrator passes besides the skip counters; modelled
per-field since the Python dict is keyed by string). -/
def increment_messages_processed (s : SMState) (now : Int) : SMState :=
  { s with statistics := { s.statistics with
      total_messages_processed := s.statistics.total_messages_processed + 1
      last_updated := some now } }

/-- Embeds `StateManager.update_last_incoming_message_time`: store the timestamp and
reset `unanswered_proactive_count` to 0. -/
def update_last_incoming_message_time (s : SMState) (timestamp : Int) :
    SMState :=
  { s with proactive := { s.proactive with
      last_incoming_message_time := some timestamp
      unanswered_proactive_count := 0 } }

/-- Embeds `StateManager.increment_unanswered_proactive`. -/
def increment_unanswered_proactive (s : SMState) (now : Int) : SMState :=
  { s with proactive := { s.proactive with
      unanswered_proactive_count := s.proactive.unanswered_proactive_count + 1
      last_proactive_message_time := some now } }

/-- Embeds `StateManager.reset_unanswered_proactive`: zero the counter and nothing
else — in particular `last_incoming_message_time` is left untouched. -/
def reset_unanswered_proactive (s : SMState) : SMState :=
  { s with proactive := { s.proactive with unanswered_proactive_count := 0 } }

/-- Embeds `StateManager.is_bot_disabled`. -/
def is_bot_disabled (s : SMState) : Bool :=
  s.bot_control.disabled

/-- Embeds `StateManager.get_disabled_reason`. -/
def get_disabled_reason (s : SMState) : Option String :=
  s.bot_control.disabled_reason

/-- Embeds `StateManager.disable_bot`: sets the flag, the reason, and
`disabled_at = datetime.now()` (passed as `now`). -/
def disable_bot (s : SMState) (reason : String) (now : Int) : SMState :=
  { s with bot_control := ⟨true, some reason, some now⟩ }

/-- Embeds `StateManager.enable_bot`. -/
def enable_bot (s : SMState) : SMState :=
  { s with bot_control := ⟨false, none, none⟩ }

/-- Embeds `StateManager.reset`. -/
def reset (_s : SMState) : SMState :=
  default_state

end StateManager

/-- The state-mutating public operations of `StateManager`, as one syntax so
that "no operation does X" claims can quantify over them. -/
inductive SMOp where
  | setLastProcessed (timestamp : Int) (message_id : String)
  | addMessageToHistory (message : String) (from_me : Bool) (timestamp : Int)
      (max_history : Nat)
  | recordReplySent (timestamp : Int) (now : Int)
  | incrementMessagesProcessed (now : Int)
  | updateLastIncoming (timestamp : Int)
  | incrementUnansweredProactive (now : Int)
  | resetUnansweredProactive
  | disableBot (reason : String) (now : Int)
  | enableBot
  | resetState
deriving Repr, DecidableEq

/-- Run one `StateManager` operation. -/
def SMOp.apply (s : SMState) : SMOp → SMState
  | .setLastProcessed t id => StateManager.set_last_processed s t id
  | .addMessageToHistory m f t cap => StateManager.add_message_to_history s m f t cap
  | .recordReplySent t now => StateManager.record_reply_sent s t now
  | .incrementMessagesProcessed now => StateManager.increment_messages_processed s now
  | .updateLastIncoming t => StateManager.update_last_incoming_message_time s t
  | .incrementUnansweredProactive now => StateManager.increment_unanswered_proactive s now
  | .resetUnansweredProactive => StateManager.reset_unanswered_proactive s
  | .disableBot r now => StateManager.disable_bot s r now
  | .enableBot => StateManager.enable_bot s
  | .resetState => StateManager.reset s

/-! Section: RateLimiter (`src/rate_limiter.py`) -/

namespace RateLimiter

/-- Embeds `RateLimiter.can_send_reply`: reads the 1h and 24h windows from the state
manager (both windows sliding from `now = datetime.now()`), denies with the
hourly window first, then the daily window. -/
def can_send_reply (s : SMState) (now : Int) (max_per_hour max_per_day : Nat) :
    Bool × String :=
  let last_hour_replies := StateManager.get_reply_timestamps s 1 now
  let last_day_replies := StateManager.get_reply_timestamps s 24 now
  if last_hour_replies.length ≥ max_per_hour then
    let n := last_hour_replies.length
    (false, s!"Hourly limit reached ({n}/{max_per_hour})")
  else if last_day_replies.length ≥ max_per_day then
    let n := last_day_replies.length
    (false, s!"Daily limit reached ({n}/{max_per_day})")
  else
    (true, "OK")

end RateLimiter

/-! Section: Classification (`src/claude_client.py`) -/

/-- Embeds `MessageClassification`: the constructor uppercases the label.  The
Python `confidence` is a float parsed by `float(...)`; no routing decision
reads its numeric value, only its 2-decimal rendering inside reason strings,
which we keep abstract as a rational with Lean's default rendering. -/
structure MessageClassification where
  label : String
  confidence : ℚ
  reasoning : String
deriving Repr, DecidableEq

/-- Embeds `MessageClassification.__init__` (which applies `label.upper()`). -/
def MessageClassification.make (label : String) (confidence : ℚ)
    (reasoning : String) : MessageClassification :=
  ⟨pyUpper label, confidence, reasoning⟩

/-- The observable outcomes of the guarded API call
`_retry_with_backoff(_classify)` inside `ClaudeClient.classify_message`:

* `parsed label confidence` — the response text parsed as JSON and the
  `label`/`confidence` fields were extracted (`label` defaulting to
  `"LOGISTICAL"`, `confidence` to `0.5` when missing);
* `parseError` — `json.loads` raised `JSONDecodeError`;
* `exhaustedRetries` — the retry wrapper gave up and raised
  `ClaudeClientError`;
* `raised msg` — some other exception escaped (for example a `ValueError`
  from `float(data.get("confidence", 0.5))`, which neither the
  `except json.JSONDecodeError` nor the retry wrapper catches). -/
inductive ApiOutcome where
  | parsed (label : String) (confidence : ℚ)
  | parseError
  | exhaustedRetries
  | raised (msg : String)
deriving Repr, DecidableEq

/-- Embeds `ClaudeClient.classify_message`.  `Except.error msg` models an exception
propagating to the caller; note that a `ClaudeClientError` from the retry
wrapper is caught *inside* this function and converted to a
`LOGISTICAL` classification with confidence 0 (`# Fallback: default to
LOGISTICAL`), despite the docstring's `Raises: ClaudeClientError`. -/
def classify_message (api : ApiOutcome) : Except String MessageClassification :=
  match api with
  | .parsed label confidence =>
    .ok (MessageClassification.make (pyUpper label) confidence
      "No reasoning provided")
  | .parseError =>
    .ok (MessageClassification.make "LOGISTICAL" (1/2)
      "Parse error, defaulted to LOGISTICAL")
  | .exhaustedRetries =>
    .ok (MessageClassification.make "LOGISTICAL" 0
      "Classification failed: ClaudeClientError")
  | .raised msg => .error msg

/-! Section: WhatsAppMessage (`src/whatsapp_client.py`) -/

/-- The fields of `WhatsAppMessage` that routing reads. -/
structure WhatsAppMessage where
  body : String
  media_type : Option String
deriving Repr, DecidableEq

/-- Embeds `WhatsAppMessage.is_media_only`:
`bool(self.media_type and not self.body.strip())` — truthiness means the
media type must be present *and* a non-empty string. -/
def WhatsAppMessage.is_media_only (w : WhatsAppMessage) : Bool :=
  (match w.media_type with
   | some mt => mt ≠ ""
   | none => false) && pyStrip w.body == ""

/-! Section: Router (`src/router.py`) -/

/-- The `Decision` enum. -/
inductive Decision where
  | AUTO_REPLY
  | TEMPLATE_EMOTIONAL
  | TEMPLATE_CONFLICT
  | TEMPLATE_EMERGENCY
  | TEMPLATE_MEDIA
  | PROACTIVE_MESSAGE
  | NO_REPLY_LOG
  | STOP_DETECTED
deriving Repr, DecidableEq

/-- The configuration fields `Router.decide` and `RateLimiter` read.  The
allowed-hours bounds stay as the `"HH:MM"` strings the config stores (they
are parsed inside `is_within_allowed_hours`). -/
structure Config where
  stop_keywords : List String
  emergency_keywords : List String
  enable_auto_reply : Bool
  busy_mode : Bool
  allowed_hours_start : String
  allowed_hours_end : String
  max_replies_per_hour : Nat
  max_replies_per_day : Nat
deriving Repr, DecidableEq

namespace Router

/-- Renders a confidence for the reason strings (Python formats `:.2f`; the
exact rendering never influences a decision). -/
def confStr (c : ℚ) : String := toString c

/-- Embeds `self.state_manager.get_disabled_reason() or "Unknown"` — Python `or`
also replaces an *empty* stored reason by `"Unknown"`. -/
def disabledReasonOrUnknown (s : SMState) : String :=
  match StateManager.get_disabled_reason s with
  | some r => if r = "" then "Unknown" else r
  | none => "Unknown"

/-- Embeds `Router.decide`.

Inputs: `cfg` the configuration; `rl` the state document read through the
rate limiter's `StateManager` reference; `sm` the router's own
`state_manager` (which is `None` by default, hence `Option`); `api` the
outcome of the classifier call for this message; `message` the text;
`t` the current time (Python also uses `datetime.now()` for the rate-limit
cutoffs and `disabled_at`, modelled by `t.epoch`); `wa` the optional full
message object.

The result is `none` when Python would raise (a malformed `HH:MM` bound
reaching `is_within_allowed_hours`), otherwise the `(Decision, reason)` pair
together with the router's state manager after the call (which `disable_bot`
may have updated). -/
def decide (cfg : Config) (rl : SMState) (sm : Option SMState)
    (api : ApiOutcome) (message : String) (t : PyDateTime)
    (wa : Option WhatsAppMessage) :
    Option ((Decision × String) × Option SMState) :=
  -- PRIORITY -1: bot disabled by a previous stop word
  if (match sm with
      | some s => StateManager.is_bot_disabled s
      | none => false) then
    match sm with
    | some s =>
      let reason := disabledReasonOrUnknown s
      some ((Decision.NO_REPLY_LOG, "Bot disabled: " ++ reason), sm)
    | none => none  -- unreachable: the guard requires `sm = some s`
  -- PRIORITY 0: media-only messages
  else if (match wa with
           | some w => w.is_media_only
           | none => false) then
    match wa with
    | some w =>
      let mt := (w.media_type).getD ""
      some ((Decision.TEMPLATE_MEDIA, s!"Media-only ({mt})"), sm)
    | none => none  -- unreachable: the guard requires `wa = some w`
  -- PRIORITY 0.5: stop keywords (`if stop_keywords and contains_stop_keyword(...)`)
  else if !cfg.stop_keywords.isEmpty
      && contains_stop_keyword message cfg.stop_keywords then
    let sm' := sm.map (fun s =>
      StateManager.disable_bot s ("User said: " ++ pyTake 100 message) t.epoch)
    some ((Decision.STOP_DETECTED, "Stop keyword detected - bot disabled"), sm')
  -- PRIORITY 1: emergency keywords
  else if contains_emergency_keyword message cfg.emergency_keywords then
    some ((Decision.TEMPLATE_EMERGENCY, "Emergency keyword detected"), sm)
  -- PRIORITY 2: auto-reply globally disabled
  else if !cfg.enable_auto_reply then
    some ((Decision.NO_REPLY_LOG, "Auto-reply disabled globally"), sm)
  else
    -- PRIORITY 3: allowed hours
    match is_within_allowed_hours t cfg.allowed_hours_start
        cfg.allowed_hours_end with
    | none => none
    | some within =>
      if !within then
        let a := cfg.allowed_hours_start
        let b := cfg.allowed_hours_end
        some ((Decision.NO_REPLY_LOG, s!"Outside allowed hours ({a}-{b})"), sm)
      -- PRIORITY 4: busy mode
      else if !cfg.busy_mode then
        some ((Decision.NO_REPLY_LOG, "Busy mode is OFF"), sm)
      else
        -- PRIORITY 5: rate limits
        let res := RateLimiter.can_send_reply rl t.epoch
          cfg.max_replies_per_hour cfg.max_replies_per_day
        if !res.1 then
          some ((Decision.NO_REPLY_LOG, "Rate limit: " ++ res.2), sm)
        else
          -- PRIORITY 6: classify and route
          match classify_message api with
          | .ok classification =>
            let c := confStr classification.confidence
            if classification.label = "LOGISTICAL" then
              some ((Decision.AUTO_REPLY,
                s!"Logistical message (confidence: {c})"), sm)
            else if classification.label = "EMOTIONAL" then
              some ((Decision.TEMPLATE_EMOTIONAL,
                s!"Emotional message (confidence: {c})"), sm)
            else if classification.label = "CONFLICT" then
              some ((Decision.TEMPLATE_CONFLICT,
                s!"Conflict message (confidence: {c})"), sm)
            else
              let l := classification.label
              some ((Decision.TEMPLATE_EMOTIONAL,
                s!"Unknown classification: {l}"), sm)
          | .error e =>
            some ((Decision.TEMPLATE_EMOTIONAL,
              "Classification failed: " ++ e), sm)

end Router

/-- The operations invoked by the message-processing pipeline itself
(`Router.decide` / `execute` / the orchestrator loop).  `enable_bot` is run
only by the manual `scripts/enable_bot.py`, and `reset` is the destructive
operator-only teardown ("careful!"), so neither is a core pipeline
operation. -/
def SMOp.isCore : SMOp → Bool
  | .enableBot => false
  | .resetState => false
  | _ => true

/-! Section: Helper lemmas -/

/-- A string occurs in anything that ends with it. -/
theorem occursIn_append_right (a b : String) : occursIn b (a ++ b) = true := by
  apply decide_eq_true
  rw [String.data_append]
  exact ⟨a.data, [], by simp⟩

/-- The string `"User said: " ++ x` is never the empty string. -/
theorem user_said_ne_empty (x : String) : ("User said: " ++ x) ≠ "" := by
  intro h
  have hlen := congrArg String.length h
  rw [String.length_append] at hlen
  have h11 : ("User said: ").length = 11 := rfl
  have h0 : ("" : String).length = 0 := rfl
  rw [h11, h0] at hlen
  omega

theorem bot_disabled_take2 (x : String) :
    ("Bot disabled: " ++ x).data.take 2 = ['B', 'o'] := by
  rw [String.data_append]
  rfl

theorem ne_bot_disabled_append (a x : String) (c : List Char)
    (hc : a.data.take 2 = c) (hne : c ≠ ['B', 'o']) :
    a ≠ "Bot disabled: " ++ x := by
  intro he
  apply hne
  rw [← hc, he, bot_disabled_take2]

/-- A nonempty `contains_stop_keyword` match forces a nonempty keyword
list. -/
theorem stop_keywords_not_isEmpty (m : String) (kws : List String)
    (h : contains_stop_keyword m kws = true) : kws.isEmpty = false := by
  cases kws with
  | nil => simp [contains_stop_keyword] at h
  | cons a l => rfl

end WhatsAppAssistant

namespace WhatsAppAssistant

/-! Section: Claims about the rate limiter and state manager -/

/-- Claim C4: `can_send_reply` returns `false` exactly when the count of reply
timestamps in the last 1 hour is at least `max_per_hour` or the count in the
last 24 hours is at least `max_per_day` (so exactly at a limit it denies and
one below it allows), and the denial reason names the exceeded window in the
`"Hourly limit reached (n/max)"` / `"Daily limit reached (n/max)"` format,
hourly checked first. -/
theorem C4_can_send_reply_window_bounds (s : SMState) (now : Int)
    (max_per_hour max_per_day : Nat) :
    ((RateLimiter.can_send_reply s now max_per_hour max_per_day).1 = false ↔
      max_per_hour ≤ (StateManager.get_reply_timestamps s 1 now).length ∨
      max_per_day ≤ (StateManager.get_reply_timestamps s 24 now).length)
    ∧ (∀ n : Nat, n = (StateManager.get_reply_timestamps s 1 now).length →
        max_per_hour ≤ n →
        (RateLimiter.can_send_reply s now max_per_hour max_per_day).2 =
          s!"Hourly limit reached ({n}/{max_per_hour})")
    ∧ (∀ n : Nat, n = (StateManager.get_reply_timestamps s 24 now).length →
        (StateManager.get_reply_timestamps s 1 now).length < max_per_hour →
        max_per_day ≤ n →
        (RateLimiter.can_send_reply s now max_per_hour max_per_day).2 =
          s!"Daily limit reached ({n}/{max_per_day})") := by
  refine ⟨?_, ?_, ?_⟩
  · simp only [RateLimiter.can_send_reply]
    by_cases hH : (StateManager.get_reply_timestamps s 1 now).length ≥
        max_per_hour
    · rw [if_pos hH]
      simp
      omega
    · rw [if_neg hH]
      by_cases hD : (StateManager.get_reply_timestamps s 24 now).length ≥
          max_per_day
      · rw [if_pos hD]
        simp
        omega
      · rw [if_neg hD]
        simp
        omega
  · intro n hn h
    subst hn
    simp only [RateLimiter.can_send_reply]
    rw [if_pos h]
  · intro n hn hH h
    subst hn
    simp only [RateLimiter.can_send_reply]
    rw [if_neg (not_le.mpr hH), if_pos h]

/-- Claim C4 witness: With `max_per_hour = 2` and two recorded replies in the
window, the third `can_send_reply` denies with reason
`"Hourly limit reached (2/2)"`; with one reply it allows. -/
theorem C4_can_send_reply_window_bounds_witness :
    (RateLimiter.can_send_reply
      { StateManager.default_state with
        rate_limit := ⟨[100, 200], 0, 0, none, none⟩ } 300 2 50).1 = false
    ∧ (RateLimiter.can_send_reply
      { StateManager.default_state with
        rate_limit := ⟨[100, 200], 0, 0, none, none⟩ } 300 2 50).2 =
        "Hourly limit reached (2/2)"
    ∧ (RateLimiter.can_send_reply
      { StateManager.default_state with
        rate_limit := ⟨[100], 0, 0, none, none⟩ } 300 2 50).1 = true := by
  refine ⟨?_, ?_, by decide⟩
  · exact (C4_can_send_reply_window_bounds _ 300 2 50).1.mpr
      (Or.inl (by decide))
  · exact (C4_can_send_reply_window_bounds _ 300 2 50).2.1 2 (by decide)
      (by decide)

/-- Claim C5 counterexample: The claim says no operation resets
`unanswered_proactive_count` to 0 without updating
`last_incoming_message_time`; but `reset_unanswered_proactive` zeroes a
nonzero counter while leaving `last_incoming_message_time` untouched. -/
theorem C5_reset_without_update_counterexample :
    ((SMOp.resetUnansweredProactive).apply { StateManager.default_state with proactive := ⟨some 50, 3, none⟩ }).proactive.unanswered_proactive_count = 0
    ∧ ({ StateManager.default_state with proactive := ⟨some 50, 3, none⟩ } : SMState).proactive.unanswered_proactive_count ≠ 0
    ∧ ((SMOp.resetUnansweredProactive).apply { StateManager.default_state with proactive := ⟨some 50, 3, none⟩ }).proactive.last_incoming_message_time = some 50 := by
  decide

/-- Claim C5 amended: `update_last_incoming_message_time(t)` always resets
`unanswered_proactive_count` to 0 (and stores `t`); conversely the only
operations that can bring a nonzero counter to 0 are
`update_last_incoming_message_time`, `reset_unanswered_proactive` and the
destructive full `reset` — the latter two without touching
`last_incoming_message_time`'s stored value coupling. -/
theorem C5_unanswered_reset_amended (s s2 : SMState) (t : Int) (op : SMOp)
    (h : (op.apply s2).proactive.unanswered_proactive_count = 0) :
    ((StateManager.update_last_incoming_message_time s t).proactive.unanswered_proactive_count = 0
      ∧ (StateManager.update_last_incoming_message_time s t).proactive.last_incoming_message_time = some t)
    ∧ (s2.proactive.unanswered_proactive_count = 0
      ∨ (∃ u, op = SMOp.updateLastIncoming u)
      ∨ op = SMOp.resetUnansweredProactive
      ∨ op = SMOp.resetState) := by
  refine ⟨⟨rfl, rfl⟩, ?_⟩
  cases op <;>
    simp_all [SMOp.apply, StateManager.set_last_processed,
      StateManager.add_message_to_history, StateManager.record_reply_sent,
      StateManager.increment_messages_processed,
      StateManager.update_last_incoming_message_time,
      StateManager.increment_unanswered_proactive,
      StateManager.reset_unanswered_proactive, StateManager.disable_bot,
      StateManager.enable_bot, StateManager.reset]

/-- Claim C5 witness: The amended claim at a concrete state and operation. -/
theorem C5_unanswered_reset_amended_witness :
    ((StateManager.update_last_incoming_message_time StateManager.default_state 7).proactive.unanswered_proactive_count = 0
      ∧ (StateManager.update_last_incoming_message_time StateManager.default_state 7).proactive.last_incoming_message_time = some 7)
    ∧ ((StateManager.default_state).proactive.unanswered_proactive_count = 0
      ∨ (∃ u, SMOp.enableBot = SMOp.updateLastIncoming u)
      ∨ SMOp.enableBot = SMOp.resetUnansweredProactive
      ∨ SMOp.enableBot = SMOp.resetState) :=
  C5_unanswered_reset_amended StateManager.default_state
    StateManager.default_state 7 SMOp.enableBot (by decide)

/-- Claim C6 counterexample: With a configured cap of 0, Python's
`history[-0:]` slice is the whole list, so `add_message_to_history` keeps
every entry and the bound `length ≤ cap` fails. -/
theorem C6_history_cap_zero_counterexample :
    ¬ ((StateManager.add_message_to_history { StateManager.default_state with message_history := [⟨"a", false, 0⟩] } "b" false 1 0).message_history.length ≤ 0) := by
  decide

/-- Claim C6 amended: For every prior history and every cap `> 0`, after
`add_message_to_history` the history has length ≤ cap, the just-appended
entry is the last one, and the kept entries form a suffix of the appended
sequence (so the oldest entries are the ones dropped, FIFO order
preserved).  At cap = 0 the Python negative slice keeps the whole list
instead. -/
theorem C6_history_bound_amended (s : SMState) (message : String)
    (from_me : Bool) (timestamp : Int) (cap : Nat) (hcap : 0 < cap) :
    (StateManager.add_message_to_history s message from_me timestamp cap).message_history.length ≤ cap
    ∧ (StateManager.add_message_to_history s message from_me timestamp cap).message_history.getLast? = some ⟨message, from_me, timestamp⟩
    ∧ (StateManager.add_message_to_history s message from_me timestamp cap).message_history <:+
        (s.message_history ++ [⟨message, from_me, timestamp⟩]) := by
  simp only [StateManager.add_message_to_history, pyLastSlice]
  rw [if_neg (by omega : ¬cap = 0)]
  refine ⟨?_, ?_, List.drop_suffix _ _⟩
  · rw [List.length_drop, List.length_append]
    simp only [List.length_cons, List.length_nil]
    omega
  · rw [List.getLast?_drop, if_neg, List.getLast?_concat]
    rw [List.length_append]
    simp only [List.length_cons, List.length_nil]
    omega

/-- Claim C6 witness: The amended claim at a concrete history and cap. -/
theorem C6_history_bound_amended_witness :
    (StateManager.add_message_to_history { StateManager.default_state with message_history := [⟨"a", false, 0⟩, ⟨"b", true, 1⟩] } "c" false 2 2).message_history.length ≤ 2
    ∧ (StateManager.add_message_to_history { StateManager.default_state with message_history := [⟨"a", false, 0⟩, ⟨"b", true, 1⟩] } "c" false 2 2).message_history.getLast? = some ⟨"c", false, 2⟩
    ∧ (StateManager.add_message_to_history { StateManager.default_state with message_history := [⟨"a", false, 0⟩, ⟨"b", true, 1⟩] } "c" false 2 2).message_history <:+
        ([⟨"a", false, 0⟩, ⟨"b", true, 1⟩] ++ [⟨"c", false, 2⟩]) :=
  C6_history_bound_amended
    { StateManager.default_state with
      message_history := [⟨"a", false, 0⟩, ⟨"b", true, 1⟩] }
    "c" false 2 2 (by decide)

/-- Claim C7 counterexample: The claim says `record_reply_sent(t)` followed by
`get_reply_timestamps(24)` *always* includes the just-recorded `t`; but a
timestamp older than 24 hours is pruned by the write itself and never
appears: with `now = 100000` and `t = 10000` (25 hours earlier) the log
comes back empty. -/
theorem C7_record_old_timestamp_counterexample :
    StateManager.get_reply_timestamps
      (StateManager.record_reply_sent StateManager.default_state 10000 100000)
      24 100000 = [] := by
  decide

/-- Claim C7 amended: `record_reply_sent(t)` followed by
`get_reply_timestamps(24)` includes the just-recorded `t` whenever `t` is
strictly newer than 24 hours before the lookup's `now` (in particular
whenever `t` is the current time); and after any `record_reply_sent` no
entry older than 24 hours (relative to the write's `now`) remains in the
log, nor does any entry older than the window appear in any
`get_reply_timestamps` result. -/
theorem C7_record_reply_window_amended (s : SMState) (t now1 now2 : Int)
    (h1 : now1 ≤ now2) (h2 : now2 - 24 * 3600 < t) :
    t ∈ StateManager.get_reply_timestamps
        (StateManager.record_reply_sent s t now1) 24 now2
    ∧ (∀ u ∈ (StateManager.record_reply_sent s t now1).rate_limit.reply_timestamps, now1 - 24 * 3600 < u)
    ∧ (∀ (s' : SMState) (hrs : Nat) (n : Int),
        ∀ u ∈ StateManager.get_reply_timestamps s' hrs n,
          n - (hrs : Int) * 3600 < u) := by
  refine ⟨?_, ?_, ?_⟩
  · unfold StateManager.get_reply_timestamps StateManager.record_reply_sent
    simp only [List.mem_filter, decide_eq_true_eq]
    refine ⟨?_, by omega⟩
    simp only [List.mem_filter, List.mem_append, decide_eq_true_eq]
    exact ⟨Or.inr (List.mem_singleton_self t), by omega⟩
  · intro u hu
    unfold StateManager.record_reply_sent at hu
    simp only [List.mem_filter, decide_eq_true_eq] at hu
    exact hu.2
  · intro s' hrs n u hu
    unfold StateManager.get_reply_timestamps at hu
    simp only [List.mem_filter, decide_eq_true_eq] at hu
    exact hu.2

/-- Claim C7 witness: The amended claim at concrete timestamps. -/
theorem C7_record_reply_window_amended_witness :
    100 ∈ StateManager.get_reply_timestamps
        (StateManager.record_reply_sent StateManager.default_state 100 200)
        24 200
    ∧ (∀ u ∈ (StateManager.record_reply_sent StateManager.default_state 100 200).rate_limit.reply_timestamps, 200 - 24 * 3600 < u)
    ∧ (∀ (s' : SMState) (hrs : Nat) (n : Int),
        ∀ u ∈ StateManager.get_reply_timestamps s' hrs n,
          n - (hrs : Int) * 3600 < u) :=
  C7_record_reply_window_amended StateManager.default_state 100 200 200
    (by decide) (by decide)

/-- Claim C8: The allowed-hours check wraps past midnight exactly when
`end < start`: `t` is inside iff `t ≥ start ∨ t ≤ end` in the wrapped case
and iff `start ≤ t ≤ end` otherwise (comparisons on the same-day time keys,
with the bounds' seconds zeroed); and concretely, with start `"23:00"` and
end `"02:00"`, 01:00 is inside the window and 12:00 is outside. -/
theorem C8_allowed_hours_wrap (t : PyDateTime) (start_hour end_hour : String)
    (sh smi eh emi : Nat)
    (hs : parse_hhmm start_hour = some (sh, smi))
    (he : parse_hhmm end_hour = some (eh, emi)) :
    (is_within_allowed_hours t start_hour end_hour = some true ↔
      (if todKey eh emi 0 0 < todKey sh smi 0 0 then
        todKey sh smi 0 0 ≤ todKey t.hour t.minute t.second t.micro ∨
          todKey t.hour t.minute t.second t.micro ≤ todKey eh emi 0 0
      else
        todKey sh smi 0 0 ≤ todKey t.hour t.minute t.second t.micro ∧
          todKey t.hour t.minute t.second t.micro ≤ todKey eh emi 0 0))
    ∧ is_within_allowed_hours ⟨0, 1, 0, 0, 0⟩ "23:00" "02:00" = some true
    ∧ is_within_allowed_hours ⟨0, 12, 0, 0, 0⟩ "23:00" "02:00" = some false := by
  refine ⟨?_, by decide, by decide⟩
  unfold is_within_allowed_hours
  rw [hs, he]
  by_cases hw : todKey eh emi 0 0 < todKey sh smi 0 0
  · simp only [if_pos hw, Option.some_inj, Bool.or_eq_true,
      decide_eq_true_eq, ge_iff_le]
  · simp only [if_neg hw, Option.some_inj, Bool.and_eq_true,
      decide_eq_true_eq]

/-! Section: Claims about the router -/

/-- Claim C3: A message containing an emergency keyword (detected
case-insensitively on the text), when the bot is not disabled, the message
is not media-only and no stop keyword fires, yields `TEMPLATE_EMERGENCY`
regardless of the auto-reply flag, the allowed-hours window, busy mode, and
the rate limiter's state (all of which are universally quantified here). -/
theorem C3_emergency_overrides_gates
    (cfg : Config) (rl : SMState) (sm : Option SMState) (api : ApiOutcome)
    (message : String) (t : PyDateTime) (wa : Option WhatsAppMessage)
    (hdis : ∀ s, sm = some s → StateManager.is_bot_disabled s = false)
    (hmedia : ∀ w, wa = some w → w.is_media_only = false)
    (hstop : contains_stop_keyword message cfg.stop_keywords = false)
    (hemerg : contains_emergency_keyword message cfg.emergency_keywords
      = true) :
    Router.decide cfg rl sm api message t wa =
      some ((Decision.TEMPLATE_EMERGENCY, "Emergency keyword detected"), sm) := by
  cases sm with
  | none =>
    cases wa with
    | none => simp [Router.decide, hstop, hemerg]
    | some w => simp [Router.decide, hmedia w rfl, hstop, hemerg]
  | some s =>
    cases wa with
    | none => simp [Router.decide, hdis s rfl, hstop, hemerg]
    | some w =>
      simp [Router.decide, hdis s rfl, hmedia w rfl, hstop, hemerg]

/-- Claim C3 witness: `"URGENT call now"` with emergency keyword `"urgent"`,
busy mode off, auto-reply off and a 03:00 time outside the 08:00–23:00
window still yields `TEMPLATE_EMERGENCY`. -/
theorem C3_emergency_overrides_gates_witness :
    Router.decide ⟨["stop"], ["urgent"], false, false, "08:00", "23:00", 10, 50⟩ StateManager.default_state (some StateManager.default_state) ApiOutcome.exhaustedRetries "URGENT call now" ⟨0, 3, 0, 0, 0⟩ none =
      some ((Decision.TEMPLATE_EMERGENCY, "Emergency keyword detected"),
        some StateManager.default_state) :=
  C3_emergency_overrides_gates _ _ _ _ _ _ _
    (fun s hs => by cases hs; rfl) (fun w hw => by cases hw)
    (by decide) (by decide)

/-- Claim C1 code bug: The claim (and the spec) say a classifier *failure*
defaults to `TEMPLATE_EMOTIONAL`, never `AUTO_REPLY`; and
`classify_message`'s docstring says it raises `ClaudeClientError` on
failure.  But the implementation catches that error and fabricates a
`LOGISTICAL` classification with confidence 0, so with every gate open a
failed classifier call routes to `AUTO_REPLY` — raw AI text — instead: the
`except` branch in `Router.decide` (`# On classification failure, use safe
template`) never sees API failures. -/
theorem C1_classifier_failure_routes_to_auto_reply :
    Router.decide ⟨["stop"], ["urgent"], true, true, "08:00", "23:00", 10, 50⟩ StateManager.default_state (some StateManager.default_state) ApiOutcome.exhaustedRetries "hello there" ⟨1000, 12, 0, 0, 0⟩ none =
      some ((Decision.AUTO_REPLY, "Logistical message (confidence: 0)"),
        some StateManager.default_state) := by
  decide

/-- Claim C2: A stop-keyword message (bot not already disabled, not
media-only) persists the disabled flag with a `"User said: …"` reason and
returns `STOP_DETECTED`; afterwards every `decide` call, on any message and
any environment, returns `NO_REPLY_LOG` with a reason containing the stored
disable reason and leaves the state untouched; no core pipeline operation
clears the disabled flag, and `enable_bot` does. -/
theorem C2_stop_keyword_is_terminal
    (cfg : Config) (rl : SMState) (s : SMState) (api : ApiOutcome)
    (message : String) (t : PyDateTime) (wa : Option WhatsAppMessage)
    (dr : String) (s1 : SMState)
    (hdr : dr = "User said: " ++ pyTake 100 message)
    (hs1 : s1 = StateManager.disable_bot s dr t.epoch)
    (hdis : StateManager.is_bot_disabled s = false)
    (hmedia : ∀ w, wa = some w → w.is_media_only = false)
    (hstop : contains_stop_keyword message cfg.stop_keywords = true) :
    Router.decide cfg rl (some s) api message t wa =
        some ((Decision.STOP_DETECTED, "Stop keyword detected - bot disabled"),
          some s1)
    ∧ StateManager.is_bot_disabled s1 = true
    ∧ StateManager.get_disabled_reason s1 = some dr
    ∧ (∀ (cfg2 : Config) (rl2 : SMState) (api2 : ApiOutcome) (m2 : String)
        (t2 : PyDateTime) (wa2 : Option WhatsAppMessage),
        Router.decide cfg2 rl2 (some s1) api2 m2 t2 wa2 =
          some ((Decision.NO_REPLY_LOG, "Bot disabled: " ++ dr), some s1)
        ∧ occursIn dr ("Bot disabled: " ++ dr) = true)
    ∧ (∀ (s' : SMState) (op : SMOp), op.isCore = true →
        StateManager.is_bot_disabled s' = true →
        StateManager.is_bot_disabled (op.apply s') = true)
    ∧ StateManager.is_bot_disabled (StateManager.enable_bot s1) = false := by
  subst hdr
  subst hs1
  have hne := stop_keywords_not_isEmpty _ _ hstop
  refine ⟨?_, rfl, rfl, ?_, ?_, rfl⟩
  · cases wa with
    | none => simp [Router.decide, hdis, hstop, hne]
    | some w => simp [Router.decide, hdis, hmedia w rfl, hstop, hne]
  · intro cfg2 rl2 api2 m2 t2 wa2
    refine ⟨?_, occursIn_append_right _ _⟩
    simp [Router.decide, StateManager.is_bot_disabled,
      StateManager.disable_bot, Router.disabledReasonOrUnknown,
      StateManager.get_disabled_reason,
      user_said_ne_empty (pyTake 100 message)]
  · intro s' op hcore hdis'
    cases op <;>
      simp_all [SMOp.apply, SMOp.isCore, StateManager.is_bot_disabled,
        StateManager.set_last_processed, StateManager.add_message_to_history,
        StateManager.record_reply_sent,
        StateManager.increment_messages_processed,
        StateManager.update_last_incoming_message_time,
        StateManager.increment_unanswered_proactive,
        StateManager.reset_unanswered_proactive, StateManager.disable_bot,
        StateManager.enable_bot, StateManager.reset]

/-- Claim C2 witness: `"stop messaging me"` with stop keyword `"stop"`
triggers `STOP_DETECTED`, and a subsequent `decide` on another message
returns `NO_REPLY_LOG` with the stored reason. -/
theorem C2_stop_keyword_is_terminal_witness :
    Router.decide ⟨["stop"], ["urgent"], true, true, "08:00", "23:00", 10, 50⟩ StateManager.default_state (some StateManager.default_state) ApiOutcome.exhaustedRetries "stop messaging me" ⟨0, 12, 0, 0, 0⟩ none =
      some ((Decision.STOP_DETECTED, "Stop keyword detected - bot disabled"),
        some { StateManager.default_state with bot_control := ⟨true, some "User said: stop messaging me", some 0⟩ })
    ∧ Router.decide ⟨["stop"], ["urgent"], true, true, "08:00", "23:00", 10, 50⟩ StateManager.default_state (some { StateManager.default_state with bot_control := ⟨true, some "User said: stop messaging me", some 0⟩ }) ApiOutcome.exhaustedRetries "are you there?" ⟨0, 12, 0, 0, 0⟩ none =
      some ((Decision.NO_REPLY_LOG, "Bot disabled: User said: stop messaging me"),
        some { StateManager.default_state with bot_control := ⟨true, some "User said: stop messaging me", some 0⟩ }) := by
  have H := C2_stop_keyword_is_terminal
    ⟨["stop"], ["urgent"], true, true, "08:00", "23:00", 10, 50⟩
    StateManager.default_state StateManager.default_state
    ApiOutcome.exhaustedRetries "stop messaging me" ⟨0, 12, 0, 0, 0⟩ none
    "User said: stop messaging me"
    { StateManager.default_state with bot_control := ⟨true, some "User said: stop messaging me", some 0⟩ }
    (by decide) (by decide) (by decide) (fun w hw => by cases hw) (by decide)
  refine ⟨H.1, ?_⟩
  have h4 := (H.2.2.2.1 ⟨["stop"], ["urgent"], true, true, "08:00", "23:00", 10, 50⟩
    StateManager.default_state ApiOutcome.exhaustedRetries "are you there?"
    ⟨0, 12, 0, 0, 0⟩ none).1
  rw [show ("Bot disabled: " ++ "User said: stop messaging me") = "Bot disabled: User said: stop messaging me" from by decide] at h4
  exact h4

/-- Claim C9: Stop-keyword detection is case-insensitive substring
containment over the whole text: whenever the lowercased message contains
the lowercasing of any configured stop keyword — whole word or not —
`decide` (bot not disabled, message not media-only) returns `STOP_DETECTED`
and the state manager, when present, is left with the disabled flag set. -/
theorem C9_stop_substring_case_insensitive
    (cfg : Config) (rl : SMState) (sm : Option SMState) (api : ApiOutcome)
    (message : String) (t : PyDateTime) (wa : Option WhatsAppMessage)
    (kw : String)
    (hdis : ∀ s, sm = some s → StateManager.is_bot_disabled s = false)
    (hmedia : ∀ w, wa = some w → w.is_media_only = false)
    (hkw : kw ∈ cfg.stop_keywords)
    (hsub : occursIn (pyLower kw) (pyLower message) = true) :
    Router.decide cfg rl sm api message t wa =
      some ((Decision.STOP_DETECTED, "Stop keyword detected - bot disabled"),
        sm.map (fun s => StateManager.disable_bot s
          ("User said: " ++ pyTake 100 message) t.epoch))
    ∧ (∀ s' : SMState, StateManager.is_bot_disabled
        (StateManager.disable_bot s'
          ("User said: " ++ pyTake 100 message) t.epoch) = true) := by
  have hstop : contains_stop_keyword message cfg.stop_keywords = true := by
    simp only [contains_stop_keyword, List.any_eq_true]
    exact ⟨kw, hkw, hsub⟩
  have hne := stop_keywords_not_isEmpty _ _ hstop
  refine ⟨?_, fun s' => rfl⟩
  cases sm with
  | none =>
    cases wa with
    | none => simp [Router.decide, hstop, hne]
    | some w => simp [Router.decide, hmedia w rfl, hstop, hne]
  | some s =>
    cases wa with
    | none => simp [Router.decide, hdis s rfl, hstop, hne]
    | some w => simp [Router.decide, hdis s rfl, hmedia w rfl, hstop, hne]

/-- Claim C9 witness: `"stop"` configured as a stop keyword fires inside the
longer word `"UNSTOPPABLE"` (different case, not a whole word) and disables
the bot. -/
theorem C9_stop_substring_case_insensitive_witness :
    Router.decide ⟨["stop"], ["urgent"], true, true, "08:00", "23:00", 10, 50⟩ StateManager.default_state (some StateManager.default_state) ApiOutcome.exhaustedRetries "You are UNSTOPPABLE today" ⟨0, 12, 0, 0, 0⟩ none =
      some ((Decision.STOP_DETECTED, "Stop keyword detected - bot disabled"),
        (some StateManager.default_state).map (fun s =>
          StateManager.disable_bot s
            ("User said: " ++ pyTake 100 "You are UNSTOPPABLE today") 0))
    ∧ (∀ s' : SMState, StateManager.is_bot_disabled
        (StateManager.disable_bot s'
          ("User said: " ++ pyTake 100 "You are UNSTOPPABLE today") 0)
        = true) :=
  C9_stop_substring_case_insensitive
    ⟨["stop"], ["urgent"], true, true, "08:00", "23:00", 10, 50⟩
    StateManager.default_state (some StateManager.default_state)
    ApiOutcome.exhaustedRetries "You are UNSTOPPABLE today" ⟨0, 12, 0, 0, 0⟩
    none "stop" (fun s hs => by cases hs; rfl) (fun w hw => by cases hw)
    (by decide) (by decide)

/-- Claim C8 witness: The window characterization at t = 01:00 with the
wrapped window 23:00–02:00. -/
theorem C8_allowed_hours_wrap_witness :
    (is_within_allowed_hours ⟨0, 1, 0, 0, 0⟩ "23:00" "02:00" = some true ↔
      (if todKey 2 0 0 0 < todKey 23 0 0 0 then
        todKey 23 0 0 0 ≤ todKey 1 0 0 0 ∨ todKey 1 0 0 0 ≤ todKey 2 0 0 0
      else
        todKey 23 0 0 0 ≤ todKey 1 0 0 0 ∧ todKey 1 0 0 0 ≤ todKey 2 0 0 0))
    ∧ is_within_allowed_hours ⟨0, 1, 0, 0, 0⟩ "23:00" "02:00" = some true
    ∧ is_within_allowed_hours ⟨0, 12, 0, 0, 0⟩ "23:00" "02:00" = some false :=
  C8_allowed_hours_wrap ⟨0, 1, 0, 0, 0⟩ "23:00" "02:00" 23 0 2 0
    (by decide) (by decide)

/-- Claim C10: with `state_manager = None` (the constructor default),
`decide` never returns `NO_REPLY_LOG` with a `"Bot disabled: …"` reason and
never produces a state manager (so nothing is ever persisted); a
stop-keyword message still returns `STOP_DETECTED` but persists no disable,
leaving subsequent messages to be evaluated against the later rules as if no
stop had occurred. -/
theorem C10_no_state_manager
    (cfg : Config) (rl : SMState) (api : ApiOutcome) (message : String)
    (t : PyDateTime) (wa : Option WhatsAppMessage) :
    (∀ (d : Decision) (r x : String) (sm' : Option SMState),
      Router.decide cfg rl none api message t wa = some ((d, r), sm') →
        sm' = none ∧ (d = Decision.NO_REPLY_LOG → r ≠ "Bot disabled: " ++ x))
    ∧ (contains_stop_keyword message cfg.stop_keywords = true →
        (∀ w, wa = some w → w.is_media_only = false) →
        Router.decide cfg rl none api message t wa =
          some ((Decision.STOP_DETECTED,
            "Stop keyword detected - bot disabled"), none)) := by
  constructor
  · intro d r x sm' h
    revert h
    rw [show Router.decide cfg rl none api message t wa =
        (if (match wa with
             | some w => w.is_media_only
             | none => false) then
          (match wa with
           | some w =>
             some ((Decision.TEMPLATE_MEDIA,
               toString "Media-only (" ++ toString ((w.media_type).getD "")
                 ++ toString ")"), none)
           | none => none)
        else if !cfg.stop_keywords.isEmpty
            && contains_stop_keyword message cfg.stop_keywords then
          some ((Decision.STOP_DETECTED,
            "Stop keyword detected - bot disabled"), none)
        else if contains_emergency_keyword message cfg.emergency_keywords then
          some ((Decision.TEMPLATE_EMERGENCY, "Emergency keyword detected"),
            none)
        else if !cfg.enable_auto_reply then
          some ((Decision.NO_REPLY_LOG, "Auto-reply disabled globally"), none)
        else
          match is_within_allowed_hours t cfg.allowed_hours_start
              cfg.allowed_hours_end with
          | none => none
          | some within =>
            if !within then
              some ((Decision.NO_REPLY_LOG,
                toString "Outside allowed hours ("
                  ++ toString cfg.allowed_hours_start ++ toString "-"
                  ++ toString cfg.allowed_hours_end ++ toString ")"), none)
            else if !cfg.busy_mode then
              some ((Decision.NO_REPLY_LOG, "Busy mode is OFF"), none)
            else if !(RateLimiter.can_send_reply rl t.epoch
                cfg.max_replies_per_hour cfg.max_replies_per_day).1 then
              some ((Decision.NO_REPLY_LOG, "Rate limit: "
                ++ (RateLimiter.can_send_reply rl t.epoch
                  cfg.max_replies_per_hour cfg.max_replies_per_day).2), none)
            else
              match classify_message api with
              | .ok classification =>
                if classification.label = "LOGISTICAL" then
                  some ((Decision.AUTO_REPLY,
                    toString "Logistical message (confidence: "
                      ++ toString (Router.confStr classification.confidence)
                      ++ toString ")"), none)
                else if classification.label = "EMOTIONAL" then
                  some ((Decision.TEMPLATE_EMOTIONAL,
                    toString "Emotional message (confidence: "
                      ++ toString (Router.confStr classification.confidence)
                      ++ toString ")"), none)
                else if classification.label = "CONFLICT" then
                  some ((Decision.TEMPLATE_CONFLICT,
                    toString "Conflict message (confidence: "
                      ++ toString (Router.confStr classification.confidence)
                      ++ toString ")"), none)
                else
                  some ((Decision.TEMPLATE_EMOTIONAL,
                    toString "Unknown classification: "
                      ++ toString classification.label ++ toString ""), none)
              | .error e =>
                some ((Decision.TEMPLATE_EMOTIONAL,
                  "Classification failed: " ++ e), none)) from rfl]
    by_cases hm : (match wa with
        | some w => w.is_media_only
        | none => false) = true
    · rw [if_pos hm]
      cases wa with
      | none => intro h; exact Option.noConfusion h
      | some w =>
        intro h
        simp only [Option.some.injEq, Prod.mk.injEq] at h
        obtain ⟨⟨hd, hr⟩, hsm⟩ := h
        subst hd
        refine ⟨hsm.symm, ?_⟩
        intro hc
        exact absurd hc (by decide)
    · rw [if_neg hm]
      by_cases h1 : (!cfg.stop_keywords.isEmpty
          && contains_stop_keyword message cfg.stop_keywords) = true
      · rw [if_pos h1]
        intro h
        simp only [Option.some.injEq, Prod.mk.injEq] at h
        obtain ⟨⟨hd, hr⟩, hsm⟩ := h
        subst hd
        refine ⟨hsm.symm, ?_⟩
        intro hc
        exact absurd hc (by decide)
      · rw [if_neg h1]
        by_cases h2 : contains_emergency_keyword message
            cfg.emergency_keywords = true
        · rw [if_pos h2]
          intro h
          simp only [Option.some.injEq, Prod.mk.injEq] at h
          obtain ⟨⟨hd, hr⟩, hsm⟩ := h
          subst hd
          refine ⟨hsm.symm, ?_⟩
          intro hc
          exact absurd hc (by decide)
        · rw [if_neg h2]
          by_cases h3 : (!cfg.enable_auto_reply) = true
          · rw [if_pos h3]
            intro h
            simp only [Option.some.injEq, Prod.mk.injEq] at h
            obtain ⟨⟨hd, hr⟩, hsm⟩ := h
            subst hd
            subst hr
            refine ⟨hsm.symm, ?_⟩
            intro hc
            exact ne_bot_disabled_append _ x ['A', 'u'] rfl (by decide)
          · rw [if_neg h3]
            cases hw : is_within_allowed_hours t cfg.allowed_hours_start
                cfg.allowed_hours_end with
            | none => intro h; exact Option.noConfusion h
            | some within =>
              dsimp only
              by_cases h4 : (!within) = true
              · rw [if_pos h4]
                intro h
                simp only [Option.some.injEq, Prod.mk.injEq] at h
                obtain ⟨⟨hd, hr⟩, hsm⟩ := h
                subst hd
                subst hr
                refine ⟨hsm.symm, ?_⟩
                intro hc
                exact ne_bot_disabled_append _ x ['O', 'u'] rfl (by decide)
              · rw [if_neg h4]
                by_cases h5 : (!cfg.busy_mode) = true
                · rw [if_pos h5]
                  intro h
                  simp only [Option.some.injEq, Prod.mk.injEq] at h
                  obtain ⟨⟨hd, hr⟩, hsm⟩ := h
                  subst hd
                  subst hr
                  refine ⟨hsm.symm, ?_⟩
                  intro hc
                  exact ne_bot_disabled_append _ x ['B', 'u'] rfl (by decide)
                · rw [if_neg h5]
                  by_cases h6 : (!(RateLimiter.can_send_reply rl t.epoch
                      cfg.max_replies_per_hour cfg.max_replies_per_day).1)
                      = true
                  · rw [if_pos h6]
                    intro h
                    simp only [Option.some.injEq, Prod.mk.injEq] at h
                    obtain ⟨⟨hd, hr⟩, hsm⟩ := h
                    subst hd
                    subst hr
                    refine ⟨hsm.symm, ?_⟩
                    intro hc
                    exact ne_bot_disabled_append _ x ['R', 'a'] rfl (by decide)
                  · rw [if_neg h6]
                    cases hapi : classify_message api with
                    | ok classification =>
                      dsimp only
                      by_cases hl1 : classification.label = "LOGISTICAL"
                      · rw [if_pos hl1]
                        intro h
                        simp only [Option.some.injEq, Prod.mk.injEq] at h
                        obtain ⟨⟨hd, hr⟩, hsm⟩ := h
                        subst hd
                        refine ⟨hsm.symm, ?_⟩
                        intro hc
                        exact absurd hc (by decide)
                      · rw [if_neg hl1]
                        by_cases hl2 : classification.label = "EMOTIONAL"
                        · rw [if_pos hl2]
                          intro h
                          simp only [Option.some.injEq, Prod.mk.injEq] at h
                          obtain ⟨⟨hd, hr⟩, hsm⟩ := h
                          subst hd
                          refine ⟨hsm.symm, ?_⟩
                          intro hc
                          exact absurd hc (by decide)
                        · rw [if_neg hl2]
                          by_cases hl3 : classification.label = "CONFLICT"
                          · rw [if_pos hl3]
                            intro h
                            simp only [Option.some.injEq, Prod.mk.injEq] at h
                            obtain ⟨⟨hd, hr⟩, hsm⟩ := h
                            subst hd
                            refine ⟨hsm.symm, ?_⟩
                            intro hc
                            exact absurd hc (by decide)
                          · rw [if_neg hl3]
                            intro h
                            simp only [Option.some.injEq, Prod.mk.injEq] at h
                            obtain ⟨⟨hd, hr⟩, hsm⟩ := h
                            subst hd
                            refine ⟨hsm.symm, ?_⟩
                            intro hc
                            exact absurd hc (by decide)
                    | error e =>
                      intro h
                      simp only [Option.some.injEq, Prod.mk.injEq] at h
                      obtain ⟨⟨hd, hr⟩, hsm⟩ := h
                      subst hd
                      refine ⟨hsm.symm, ?_⟩
                      intro hc
                      exact absurd hc (by decide)
  · intro hstop hmedia
    have hne := stop_keywords_not_isEmpty _ _ hstop
    cases wa with
    | none => simp [Router.decide, hstop, hne]
    | some w => simp [Router.decide, hmedia w rfl, hstop, hne]

/-- Claim C10 witness: a stop message with no state manager returns
`STOP_DETECTED` with no persisted state, and the generic guarantee
instantiated at that very call. -/
theorem C10_no_state_manager_witness :
    Router.decide ⟨["stop"], ["urgent"], true, true, "08:00", "23:00", 10, 50⟩ StateManager.default_state none ApiOutcome.exhaustedRetries "please stop" ⟨0, 12, 0, 0, 0⟩ none =
      some ((Decision.STOP_DETECTED, "Stop keyword detected - bot disabled"),
        none)
    ∧ (none : Option SMState) = none
    ∧ (Decision.STOP_DETECTED = Decision.NO_REPLY_LOG →
        "Stop keyword detected - bot disabled" ≠ "Bot disabled: " ++ "x") := by
  have H := C10_no_state_manager
    ⟨["stop"], ["urgent"], true, true, "08:00", "23:00", 10, 50⟩
    StateManager.default_state ApiOutcome.exhaustedRetries "please stop"
    ⟨0, 12, 0, 0, 0⟩ none
  have h2 := H.2 (by decide) (fun w hw => by cases hw)
  exact ⟨h2, H.1 _ _ "x" _ h2⟩

end WhatsAppAssistant
